import Mathlib

/-!
Verification development for the claude-pause-mcp decision-dialog tool.

The development shallowly embeds the persistence and exchange logic of the
three source files:
  - history.py: the bounded FIFO history store (DialogHistory);
  - dialog.py: the desktop GUI front-end (thinking-mode preference
    load/save, submit, cancel, process entry point);
  - dialog-web.py: the local-HTTP front-end (request handler, module-level
    result variable, process entry point).

Strings are modelled by Lean String, which, like a Python str, is a sequence
of code points; Python slicing and strip are modelled on the code-point list.
File system state is modelled explicitly: a preference file is missing,
unreadable, or stores a string; writes replace that state. Nondeterministic
inputs of the code (timestamps) are passed as parameters.
-/

namespace ClaudePause

/-- Python code-point slice s[:n], as used by context[:100] in history.py and
response[:40] in dialog.py. Python strings index by code point, so this is a
take on the code-point list. -/
def pySlice (s : String) (n : Nat) : String := String.mk (s.data.take n)

/-- Python str.strip() with no argument: remove leading and trailing
whitespace code points, as used on the preference file content. -/
def pyStrip (s : String) : String :=
  String.mk (((s.data.dropWhile Char.isWhitespace).reverse.dropWhile
    Char.isWhitespace).reverse)

/-- The thinking-mode enumeration, in the order the validation lists it in
dialog.py line 234 and dialog-web.py line 35. -/
def validModes : List String := ["normal", "deep", "ultra", "quick"]

/-- State of the preference file .thinking_mode_preference as the loading
code distinguishes it: absent, present but failing to read, or present with
content. -/
inductive PrefFile where
  | missing : PrefFile
  | unreadable : PrefFile
  | stored : String → PrefFile
deriving DecidableEq, Repr

/-- Preference load (dialog.py lines 228-239, dialog-web.py lines 29-38):
default normal; if the file exists and reads, strip the content and accept
it only when it is one of the four modes; any exception is swallowed. -/
def loadPref : PrefFile → String
  | PrefFile.missing => "normal"
  | PrefFile.unreadable => "normal"
  | PrefFile.stored s =>
      let saved := pyStrip s
      if saved ∈ validModes then saved else "normal"

/-- Preference save (dialog.py lines 404-408 and 302-308, dialog-web.py
lines 280-285): overwrite the file with the raw mode string. -/
def savePref (m : String) : PrefFile := PrefFile.stored m

/-- One record of the history file, the dict built in
DialogHistory.add_entry (history.py lines 29-34). -/
structure HistoryEntry where
  timestamp : String
  response : String
  context : String
  thinking_mode : String
deriving DecidableEq, Repr

/-- The record add_entry builds: the context field is
context[:100] + "..." when len(context) > 100, else context verbatim
(history.py line 32). -/
def mkEntry (timestamp response context thinking_mode : String) : HistoryEntry :=
  { timestamp := timestamp
  , response := response
  , context := if 100 < context.length then pySlice context 100 ++ "..." else context
  , thinking_mode := thinking_mode }

/-- In-memory state of history.py DialogHistory: the cap max_items and the
current list, most-recent first. -/
structure DialogHistory where
  max_items : Nat
  history : List HistoryEntry
deriving DecidableEq, Repr

/-- DialogHistory() with the default cap of 10 and an empty loaded list. -/
def defaultHistory : DialogHistory := ⟨10, []⟩

/-- DialogHistory.load_history (history.py lines 12-19): the parsed file
content when the file exists and parses, else the empty list. -/
def loadHistory (parsed : Option (List HistoryEntry)) : List HistoryEntry :=
  parsed.getD []

/-- DialogHistory.add_entry (history.py lines 28-37): build the record,
insert at index 0, truncate the list to max_items, persist. The timestamp
datetime.now().isoformat() is passed in as a parameter. -/
def DialogHistory.add_entry (h : DialogHistory)
    (response context thinking_mode timestamp : String) : DialogHistory :=
  ⟨h.max_items, (mkEntry timestamp response context thinking_mode :: h.history).take h.max_items⟩

/-- DialogHistory.get_recent (history.py lines 39-40). -/
def DialogHistory.get_recent (h : DialogHistory) (count : Nat) : List HistoryEntry :=
  h.history.take count

/-- One submission, the data a non-cancelled submit feeds to add_entry. -/
structure Submission where
  response : String
  context : String
  thinking_mode : String
  timestamp : String
deriving DecidableEq, Repr

/-- The history record a submission produces. -/
def Submission.record (s : Submission) : HistoryEntry :=
  mkEntry s.timestamp s.response s.context s.thinking_mode

/-- Run a sequence of submissions through add_entry, oldest first. -/
def addAll (h : DialogHistory) (subs : List Submission) : DialogHistory :=
  subs.foldl (fun acc s => acc.add_entry s.response s.context s.thinking_mode s.timestamp) h

/-! GUI front-end, dialog.py. -/

/-- Effect of one terminal GUI action on the observable state: the line
printed to standard output, the value written to the preference file (none
when nothing is written), and the resulting history. -/
structure GuiOutcome where
  stdoutLine : String
  prefWritten : Option String
  historyAfter : DialogHistory
deriving DecidableEq, Repr

/-- dialog.py submit() (lines 399-416): write the current mode to the
preference file; when the response is truthy (non-empty) and not the literal
CANCELLED, add a history entry; print response|||mode. -/
def submit (response thinking_mode context timestamp : String)
    (h : DialogHistory) : GuiOutcome :=
  { stdoutLine := response ++ "|||" ++ thinking_mode
  , prefWritten := some thinking_mode
  , historyAfter :=
      if response ≠ "" ∧ response ≠ "CANCELLED" then
        h.add_entry response context thinking_mode timestamp
      else h }

/-- dialog.py cancel() (lines 418-421): print CANCELLED; the preference file
and the history are not touched. -/
def cancel (h : DialogHistory) : GuiOutcome :=
  { stdoutLine := "CANCELLED", prefWritten := none, historyAfter := h }

/-- The mode-selection events available in the GUI: the four radio buttons
(dialog.py lines 243-248) and the q/n/d/u key bindings (lines 460-467) each
set the thinking_mode variable to one of the four mode strings. -/
inductive ModeEvent where
  | quick : ModeEvent
  | normal : ModeEvent
  | deep : ModeEvent
  | ultra : ModeEvent
deriving DecidableEq, Repr

/-- The mode string a selection event writes to the thinking_mode variable. -/
def ModeEvent.toMode : ModeEvent → String
  | ModeEvent.quick => "quick"
  | ModeEvent.normal => "normal"
  | ModeEvent.deep => "deep"
  | ModeEvent.ultra => "ultra"

/-- The GUI mode state: the current thinking_mode variable value and the
preference file. -/
structure GuiModeState where
  thinking_mode : String
  prefFile : PrefFile
deriving DecidableEq, Repr

/-- Dialog start-up (dialog.py lines 228-241 and 310-311): the variable is
set to the loaded preference, and update_mode_indicator runs once at the
initial render, writing that mode back to the preference file. -/
def initModeState (pf : PrefFile) : GuiModeState :=
  ⟨loadPref pf, PrefFile.stored (loadPref pf)⟩

/-- One mode-selection event: the trace on thinking_mode fires
update_mode_indicator (dialog.py lines 284-311), which writes the newly
selected mode to the preference file. -/
def selectMode (_s : GuiModeState) (e : ModeEvent) : GuiModeState :=
  ⟨e.toMode, PrefFile.stored e.toMode⟩

/-- The GUI mode state after start-up from preference file pf followed by a
sequence of selection events. -/
def runModeEvents (pf : PrefFile) (events : List ModeEvent) : GuiModeState :=
  events.foldl selectMode (initModeState pf)

/-! Web front-end, dialog-web.py. -/

/-- The module-level mutable state of dialog-web.py together with the files
it can write: the global result (None at module load, line 12), the
preference file, and the history file. The web variant never opens the
history file. -/
structure WebGlobals where
  result : Option String
  prefFile : PrefFile
  historyFile : List HistoryEntry
deriving DecidableEq, Repr

/-- The result string the /submit handler computes (dialog-web.py
line 277). -/
def webComputedResult (response mode : String) : String :=
  response ++ "|||" ++ mode

/-- One GET request as DialogHandler.do_GET dispatches on the path:
the root page, /submit with its two query parameters (response defaults to
the empty string, mode to normal, lines 274-276), /cancel, or any other
path. -/
inductive WebRequest where
  | root : WebRequest
  | submit : String → String → WebRequest
  | cancel : WebRequest
  | other : String → WebRequest
deriving DecidableEq, Repr

/-- DialogHandler.do_GET (dialog-web.py lines 16-295) as a step on the
module state. The /submit branch assigns result without a global
declaration, so the assignment on line 277 binds a function-local variable
and the module-level result is unchanged; only the preference file is
written (lines 280-285). The /cancel branch has the same local binding on
line 292 and changes nothing in the module state. Neither branch touches
the history file. -/
def webStep (g : WebGlobals) : WebRequest → WebGlobals
  | WebRequest.root => g
  | WebRequest.submit response mode =>
      let _localResult := webComputedResult response mode
      ⟨g.result, PrefFile.stored mode, g.historyFile⟩
  | WebRequest.cancel =>
      let _localResult := "CANCELLED"
      g
  | WebRequest.other _ => g

/-- Serve a sequence of requests. -/
def webRun (g : WebGlobals) (reqs : List WebRequest) : WebGlobals :=
  reqs.foldl webStep g

/-- The line the web variant prints (dialog-web.py lines 324-326):
show_web_dialog returns the module-level result, and the main block prints
it only when it is truthy, so None and the empty string print nothing. -/
def webMainStdout (g : WebGlobals) : Option String :=
  match g.result with
  | some s => if s = "" then none else some s
  | none => none

/-! Process entry points. -/

/-- End of one whole process run: the process exits with a status and the
lines it wrote to standard output, or it never exits at all. -/
inductive ProcessEnd where
  | exited : Nat → List String → ProcessEnd
  | hangs : ProcessEnd
deriving DecidableEq, Repr

/-- The three ways the GUI main loop can end (dialog.py): submit() ran with
the current response and mode (Submit button or Return key, lines 456 and
424-438), cancel() ran (Cancel button or Escape, lines 457 and 441-453), or
the user closed the window, in which case the window manager destroys the
root and mainloop returns with neither handler having run. -/
inductive GuiEnd where
  | submitPressed : String → String → GuiEnd
  | cancelPressed : GuiEnd
  | windowClosed : GuiEnd
deriving DecidableEq, Repr

/-- dialog.py main block (lines 477-482) together with the tail of
show_dialog (lines 474-475). Without the argument: print the usage error
and sys.exit(1). With it: submit() prints response|||mode and calls
root.quit(), mainloop returns with the root intact, root.destroy() succeeds
and the process falls off main with exit 0; cancel() likewise prints
CANCELLED and exits 0. Closing the window instead destroys the root,
mainloop returns without printing, and the root.destroy() call on line 475
raises TclError on the already-destroyed application; the exception is
uncaught, so the process exits 1 with nothing on standard output. -/
def guiMain (argv : List String) (e : GuiEnd) : ProcessEnd :=
  match argv with
  | _ :: _ :: _ =>
      match e with
      | GuiEnd.submitPressed response mode =>
          ProcessEnd.exited 0 [response ++ "|||" ++ mode]
      | GuiEnd.cancelPressed => ProcessEnd.exited 0 ["CANCELLED"]
      | GuiEnd.windowClosed => ProcessEnd.exited 1 []
  | _ => ProcessEnd.exited 1 ["ERROR: No input provided"]

/-- dialog-web.py main block (lines 322-329). Without the argument: print
the usage error and sys.exit(1). With it, the main thread blocks in
server_thread.join() (line 318), which returns only if serve_forever
returns. While no submit or cancel request arrives, the server waits
indefinitely (there is no timeout). When one does arrive, the handler calls
server.shutdown() from inside do_GET (lines 289 and 295); the plain
TCPServer runs handlers inside the serve_forever loop on that same thread,
and shutdown blocks on the shut-down event that only the return of
serve_forever can set, a self-deadlock. Either way the join never returns:
whatever the request sequence, the process never exits and never reaches
the print on line 326. -/
def webMain (argv : List String) (_reqs : List WebRequest) : ProcessEnd :=
  match argv with
  | _ :: _ :: _ => ProcessEnd.hangs
  | _ => ProcessEnd.exited 1 ["ERROR: No input provided"]

/-! Helper lemmas. -/

/-- Whatever the preference file holds, the loaded mode is one of the four. -/
theorem loadPref_mem (pf : PrefFile) : loadPref pf ∈ validModes := by
  cases pf with
  | missing => simp [loadPref, validModes]
  | unreadable => simp [loadPref, validModes]
  | stored s =>
      simp only [loadPref]
      split
      · assumption
      · simp [validModes]

/-- Truncating the second summand of an append before a take n is absorbed
by the outer take n. -/
theorem take_append_take {α : Type} (A B : List α) (n : Nat) :
    (A ++ B.take n).take n = (A ++ B).take n := by
  rw [List.take_append_eq_append_take, List.take_append_eq_append_take,
    List.take_take, Nat.min_eq_left (Nat.sub_le n A.length)]

/-- Closed form of a submission sequence run through add_entry: the records
in reverse submission order, prepended to the starting list, truncated to
the cap. -/
theorem addAll_history (subs : List Submission) (cap : Nat)
    (l : List HistoryEntry) (hl : l.length ≤ cap) :
    (addAll ⟨cap, l⟩ subs).history =
      ((subs.map Submission.record).reverse ++ l).take cap := by
  induction subs generalizing l with
  | nil => simp [addAll, List.take_of_length_le hl]
  | cons s ss ih =>
      have hstep : addAll ⟨cap, l⟩ (s :: ss) =
          addAll ⟨cap, (Submission.record s :: l).take cap⟩ ss := rfl
      rw [hstep, ih _ (by rw [List.length_take]; exact Nat.min_le_left _ _)]
      rw [take_append_take]
      simp [List.append_assoc]

/-- Any state with a valid thinking_mode keeps a valid thinking_mode under
mode-selection events. -/
theorem foldl_selectMode_mem (events : List ModeEvent) (s : GuiModeState)
    (hs : s.thinking_mode ∈ validModes) :
    (events.foldl selectMode s).thinking_mode ∈ validModes := by
  induction events generalizing s with
  | nil => exact hs
  | cons e es ih =>
      apply ih
      cases e <;> simp [selectMode, ModeEvent.toMode, validModes]

/-! Claim theorems. -/

/-- Claim C4: the history length after add_entry never exceeds the cap; a
sequence of N submissions with N greater than the cap, starting from an
empty log, yields min N cap (= cap) records, and exactly the most recent
submissions in most-recent-first order. -/
theorem history_cap_invariant (cap : Nat) (subs : List Submission)
    (hcap : cap < subs.length) :
    (∀ (h : DialogHistory) (r c m t : String),
        (h.add_entry r c m t).history.length ≤ h.max_items)
    ∧ (addAll ⟨cap, []⟩ subs).history.length = min subs.length cap
    ∧ (addAll ⟨cap, []⟩ subs).history.length = cap
    ∧ (addAll ⟨cap, []⟩ subs).history =
        ((subs.map Submission.record).reverse).take cap := by
  have hchar := addAll_history subs cap [] (Nat.zero_le cap)
  rw [List.append_nil] at hchar
  refine ⟨?_, ?_, ?_, hchar⟩
  · intro h r c m t
    show ((mkEntry t r c m :: h.history).take h.max_items).length ≤ h.max_items
    rw [List.length_take]
    exact Nat.min_le_left _ _
  · rw [hchar, List.length_take, List.length_reverse, List.length_map, Nat.min_comm]
  · rw [hchar, List.length_take, List.length_reverse, List.length_map]
    exact Nat.min_eq_left (Nat.le_of_lt hcap)

/-- Three concrete submissions for evaluating the history store. -/
def demoSubs : List Submission :=
  [⟨"r1", "c1", "normal", "t1"⟩, ⟨"r2", "c2", "deep", "t2"⟩, ⟨"r3", "c3", "ultra", "t3"⟩]

/-- Witness for history_cap_invariant: cap 2, three submissions. -/
theorem history_cap_invariant_witness :
    (addAll ⟨2, []⟩ demoSubs).history.length = 2
    ∧ (addAll ⟨2, []⟩ demoSubs).history =
        ((demoSubs.map Submission.record).reverse).take 2 :=
  ⟨(history_cap_invariant 2 demoSubs (by decide)).2.2.1,
   (history_cap_invariant 2 demoSubs (by decide)).2.2.2⟩

/-- Claim C5: add_entry stores the 100-code-point prefix of the context plus
the trailing marker when the context is longer than 100, and the context
verbatim otherwise; the stored record sits at the front of the history. -/
theorem context_truncation (ctx : String) (h : DialogHistory)
    (r m t : String) (hcap : 0 < h.max_items) :
    (100 < ctx.length →
        (mkEntry t r ctx m).context = pySlice ctx 100 ++ "..."
        ∧ (pySlice ctx 100).length = 100
        ∧ (mkEntry t r ctx m).context.length = 103)
    ∧ (ctx.length ≤ 100 → (mkEntry t r ctx m).context = ctx)
    ∧ (h.add_entry r ctx m t).history.head? = some (mkEntry t r ctx m) := by
  refine ⟨?_, ?_, ?_⟩
  · intro hlong
    have hslice : (pySlice ctx 100).length = 100 := by
      have : ctx.data.length = ctx.length := String.length_data ctx
      simp [pySlice, List.length_take]
      omega
    refine ⟨?_, hslice, ?_⟩
    · show (if 100 < ctx.length then pySlice ctx 100 ++ "..." else ctx) = _
      rw [if_pos hlong]
    · show (if 100 < ctx.length then pySlice ctx 100 ++ "..." else ctx).length = 103
      rw [if_pos hlong, String.length_append, hslice]
      decide
  · intro hshort
    show (if 100 < ctx.length then pySlice ctx 100 ++ "..." else ctx) = ctx
    rw [if_neg (Nat.not_lt.mpr hshort)]
  · show ((mkEntry t r ctx m :: h.history).take h.max_items).head? = _
    rw [List.head?_take, if_neg (Nat.pos_iff_ne_zero.mp hcap)]
    rfl

/-- A context of 101 identical code points, longer than the 100 cut-off. -/
def longCtx : String := String.mk (List.replicate 101 'a')

/-- Witness for context_truncation: one over-long context is truncated with
the marker, one short context is stored verbatim. -/
theorem context_truncation_witness :
    (mkEntry "t" "r" longCtx "normal").context = pySlice longCtx 100 ++ "..."
    ∧ (mkEntry "t" "r" "short" "normal").context = "short" :=
  ⟨((context_truncation longCtx defaultHistory "r" "normal" "t"
      (by decide)).1 (by decide)).1,
   (context_truncation "short" defaultHistory "r" "normal" "t"
      (by decide)).2.1 (by decide)⟩

/-- Claim C6: saving any of the four mode strings to the preference file and
loading it back returns the same mode. -/
theorem pref_roundtrip (m : String) (hm : m ∈ validModes) :
    loadPref (savePref m) = m := by
  have hcases : m = "normal" ∨ m = "deep" ∨ m = "ultra" ∨ m = "quick" := by
    simpa [validModes] using hm
  rcases hcases with h | h | h | h <;> subst h <;> decide

/-- Witness for pref_roundtrip at the mode ultra. -/
theorem pref_roundtrip_witness : loadPref (savePref "ultra") = "ultra" :=
  pref_roundtrip "ultra" (by decide)

/-- Claim C7: loading the preference on a missing file, an unreadable file,
or a stored value outside the enumeration returns normal; the load is a
total function, so no exception reaches the caller. -/
theorem pref_load_fails_soft (s : String) (hs : pyStrip s ∉ validModes) :
    loadPref PrefFile.missing = "normal"
    ∧ loadPref PrefFile.unreadable = "normal"
    ∧ loadPref (PrefFile.stored s) = "normal" := by
  refine ⟨rfl, rfl, ?_⟩
  simp [loadPref, hs]

/-- Witness for pref_load_fails_soft at the stored value banana. -/
theorem pref_load_fails_soft_witness :
    loadPref PrefFile.missing = "normal"
    ∧ loadPref PrefFile.unreadable = "normal"
    ∧ loadPref (PrefFile.stored "banana") = "normal" :=
  pref_load_fails_soft "banana" (by decide)

/-- Claim C1 (code-bug evidence): the GUI submit prints exactly the line
response|||mode, but the web variant prints nothing for the same submitted
outcome: the /submit handler binds result locally instead of assigning the
module-level result, so even the print gate of the main block would see
None and skip the print; and in fact the web process never even reaches
that gate, hanging in the shutdown deadlock, so its run emits no standard
output at all. -/
theorem submit_stdout_bug :
    (submit "fix the bug" "deep" "" "t" defaultHistory).stdoutLine = "fix the bug|||deep"
    ∧ webMainStdout (webRun ⟨none, PrefFile.missing, []⟩
        [WebRequest.root, WebRequest.submit "fix the bug" "deep"]) = none
    ∧ webMain ["dialog-web.py", "input"]
        [WebRequest.root, WebRequest.submit "fix the bug" "deep"] = ProcessEnd.hangs := by
  refine ⟨rfl, rfl, rfl⟩

/-- Claim C2 (code-bug evidence): cancelling in the GUI prints exactly
CANCELLED and leaves the history and the preference file untouched; the web
variant likewise adds no history entry, but prints nothing at all instead
of CANCELLED, for the same local-binding reason as in submit. -/
theorem cancel_stdout_bug :
    (cancel defaultHistory).stdoutLine = "CANCELLED"
    ∧ (cancel defaultHistory).historyAfter = defaultHistory
    ∧ (cancel defaultHistory).prefWritten = none
    ∧ (webRun ⟨none, PrefFile.missing, []⟩
        [WebRequest.root, WebRequest.cancel]).historyFile = []
    ∧ webMainStdout (webRun ⟨none, PrefFile.missing, []⟩
        [WebRequest.root, WebRequest.cancel]) = none := by
  refine ⟨rfl, rfl, rfl, rfl, rfl⟩

/-- Claim C3 counterexample: a web submit with the non-empty response hello,
which is not the cancellation sentinel, appends nothing to the history
store, so the claim fails for the web front-end. -/
theorem web_submit_no_history :
    ("hello" ≠ "" ∧ "hello" ≠ "CANCELLED")
    ∧ (webStep ⟨none, PrefFile.missing, []⟩
        (WebRequest.submit "hello" "deep")).historyFile = [] :=
  ⟨⟨by decide, by decide⟩, rfl⟩

/-- Claim C3 (amended): the GUI submit persists the mode and appends a
record exactly when the response is non-empty and differs from CANCELLED,
with the new record at the front and the prior records truncated to cap
minus one; the web submit persists the mode but never appends to the
history store. -/
theorem submit_persistence (r m ctx ts : String) (h : DialogHistory)
    (g : WebGlobals) (hcap : 0 < h.max_items) :
    (submit r m ctx ts h).prefWritten = some m
    ∧ (r ≠ "" ∧ r ≠ "CANCELLED" →
        (submit r m ctx ts h).historyAfter.history.head? = some (mkEntry ts r ctx m)
        ∧ (submit r m ctx ts h).historyAfter.history.tail =
            h.history.take (h.max_items - 1))
    ∧ (r = "" ∨ r = "CANCELLED" → (submit r m ctx ts h).historyAfter = h)
    ∧ (webStep g (WebRequest.submit r m)).prefFile = PrefFile.stored m
    ∧ (webStep g (WebRequest.submit r m)).historyFile = g.historyFile := by
  obtain ⟨k, hk⟩ : ∃ k, h.max_items = k + 1 :=
    ⟨h.max_items - 1, (Nat.succ_pred_eq_of_pos hcap).symm⟩
  refine ⟨rfl, ?_, ?_, rfl, rfl⟩
  · intro hcond
    have heq : (submit r m ctx ts h).historyAfter = h.add_entry r ctx m ts := by
      simp [submit, hcond]
    rw [heq]
    constructor
    · show ((mkEntry ts r ctx m :: h.history).take h.max_items).head? = _
      rw [List.head?_take, if_neg (Nat.pos_iff_ne_zero.mp hcap)]
      rfl
    · show ((mkEntry ts r ctx m :: h.history).take h.max_items).tail =
          h.history.take (h.max_items - 1)
      rw [hk, List.take_succ_cons]
      simp
  · intro hcond
    have hneg : ¬(r ≠ "" ∧ r ≠ "CANCELLED") := by
      rcases hcond with h1 | h1 <;> simp [h1]
    simp [submit, hneg]

/-- Witness for submit_persistence with the response yes and mode deep. -/
theorem submit_persistence_witness :
    (submit "yes" "deep" "ctx" "t0" defaultHistory).prefWritten = some "deep"
    ∧ (submit "yes" "deep" "ctx" "t0" defaultHistory).historyAfter.history.head? =
        some (mkEntry "t0" "yes" "ctx" "deep")
    ∧ (webStep ⟨none, PrefFile.missing, []⟩
        (WebRequest.submit "yes" "deep")).historyFile = [] :=
  ⟨(submit_persistence "yes" "deep" "ctx" "t0" defaultHistory
      ⟨none, PrefFile.missing, []⟩ (by decide)).1,
   ((submit_persistence "yes" "deep" "ctx" "t0" defaultHistory
      ⟨none, PrefFile.missing, []⟩ (by decide)).2.1 ⟨by decide, by decide⟩).1,
   (submit_persistence "yes" "deep" "ctx" "t0" defaultHistory
      ⟨none, PrefFile.missing, []⟩ (by decide)).2.2.2.2⟩

/-- Claim C8 counterexample: the /submit handler copies the raw mode query
parameter into the computed result string and into the preference file with
no validation, so a crafted request yields the mode component banana, which
is outside the enumeration; moreover no standard-output line is produced at
all in the web variant. -/
theorem web_mode_unvalidated :
    webComputedResult "x" "banana" = "x|||banana"
    ∧ "banana" ∉ validModes
    ∧ (webStep ⟨none, PrefFile.missing, []⟩
        (WebRequest.submit "x" "banana")).prefFile = PrefFile.stored "banana"
    ∧ webMainStdout (webRun ⟨none, PrefFile.missing, []⟩
        [WebRequest.submit "x" "banana"]) = none :=
  ⟨rfl, by decide, rfl, rfl⟩

/-- Claim C8 (amended): in the GUI variant, whatever preference file the run
starts from and whatever mode selections the user makes, the standard-output
line of a submit is response|||mode with a mode from the four-value
enumeration; the web variant computes response|||mode from the raw query
parameters without validating the mode. -/
theorem stdout_mode_component (pf : PrefFile) (events : List ModeEvent)
    (r ctx ts resp mode : String) (h : DialogHistory) :
    (submit r (runModeEvents pf events).thinking_mode ctx ts h).stdoutLine =
        r ++ "|||" ++ (runModeEvents pf events).thinking_mode
    ∧ (runModeEvents pf events).thinking_mode ∈ validModes
    ∧ webComputedResult resp mode = resp ++ "|||" ++ mode := by
  refine ⟨rfl, ?_, rfl⟩
  exact foldl_selectMode_mem events (initModeState pf) (loadPref_mem pf)

/-- Claim C9 (code-bug evidence): without the JSON argument both variants
print the usage error and exit 1, and a GUI submit or explicit cancel exits
0 as the claim says; but a GUI cancel by closing the window exits 1 with no
output, because root.destroy() raises TclError on the destroyed root, and
the web process never exits at all once a submit or cancel request arrives,
because server.shutdown() called from inside the handler deadlocks
serve_forever, so not every submit or cancel outcome exits with status 0. -/
theorem exit_status_bug :
    guiMain ["dialog.py"] GuiEnd.cancelPressed =
        ProcessEnd.exited 1 ["ERROR: No input provided"]
    ∧ webMain ["dialog-web.py"] [] = ProcessEnd.exited 1 ["ERROR: No input provided"]
    ∧ guiMain ["dialog.py", "input"] (GuiEnd.submitPressed "fix the bug" "deep") =
        ProcessEnd.exited 0 ["fix the bug|||deep"]
    ∧ guiMain ["dialog.py", "input"] GuiEnd.cancelPressed =
        ProcessEnd.exited 0 ["CANCELLED"]
    ∧ guiMain ["dialog.py", "input"] GuiEnd.windowClosed = ProcessEnd.exited 1 []
    ∧ webMain ["dialog-web.py", "input"]
        [WebRequest.root, WebRequest.submit "fix the bug" "deep"] = ProcessEnd.hangs
    ∧ webMain ["dialog-web.py", "input"] [WebRequest.root, WebRequest.cancel] =
        ProcessEnd.hangs := by
  refine ⟨rfl, rfl, rfl, rfl, rfl, rfl, rfl⟩

/-- Claim C10: in the GUI, after the initial render and after every
mode-selection event the preference file holds exactly the currently
selected mode; in particular after any final selection the file holds that
mode, and cancel writes nothing, so the last selection stays persisted when
the dialog is cancelled. -/
theorem mode_saved_on_change (pf : PrefFile) (events : List ModeEvent) :
    (runModeEvents pf events).prefFile =
        PrefFile.stored (runModeEvents pf events).thinking_mode
    ∧ (∀ e : ModeEvent,
        (runModeEvents pf (events ++ [e])).prefFile = PrefFile.stored e.toMode)
    ∧ (∀ h : DialogHistory, (cancel h).prefWritten = none) := by
  refine ⟨?_, ?_, fun _ => rfl⟩
  · have hinv : ∀ (es : List ModeEvent) (s : GuiModeState),
        s.prefFile = PrefFile.stored s.thinking_mode →
        (es.foldl selectMode s).prefFile =
          PrefFile.stored ((es.foldl selectMode s).thinking_mode) := by
      intro es
      induction es with
      | nil => intro s hs; exact hs
      | cons e es ih => intro s _; exact ih _ rfl
    exact hinv events (initModeState pf) rfl
  · intro e
    show ((events ++ [e]).foldl selectMode (initModeState pf)).prefFile = _
    rw [List.foldl_append]
    rfl

end ClaudePause
